import Mathlib

/-!
Shallow embedding of `src/quadratic_bezier_line.js` (`QuadraticBezierLine`):
a quadratic Bezier polyline drawn between two lat/lng coordinates.

Modelling conventions:

* JS numbers are modelled by `ℚ` (exact arithmetic).  The one place where
  IEEE-754 special values matter — the `t * (1 / steps)` parameter
  computation when `steps = 0`, where JS yields `0 * Infinity = NaN` —
  is re-embedded over `JsNum`, rationals extended with the infinities and
  NaN, with the IEEE-754 rules for the operations the source uses.
* The options object is an association list of dynamically typed JS values
  (`Options`), so that the JS truthiness tests in the source
  (`opts[attr] || defaults[attr]`, `this.opts.controlPoint || ...`) can be
  modelled faithfully.
* The loop `for (var t = 0; t <= steps; t++)` of `getPolylinePoints` is
  embedded as the structurally recursive `sampleIter self steps t n`,
  where `n` is the number of iterations left (`n = steps + 1 - t`).
  `self.middlePoint` is assigned at the iteration whose counter satisfies
  `t === steps / 2` (a JS number comparison, hence `(t : ℚ) = steps / 2`);
  that holds for at most one `t`, so keeping the first hit equals the
  source's last-write-wins assignment.
* Mutation of `this` is explicit state passing: `getPolylinePoints`
  returns the produced array together with the updated object, and the
  constructor returns the constructed object together with the arguments
  handed to the `GPolyline` base-class call (the overlay collaborator).
-/

/-- A latitude/longitude pair (the source's `GLatLng` payload), with JS
numbers modelled as exact rationals. -/
structure Coordinate where
  lat : ℚ
  lng : ℚ
deriving DecidableEq, Repr

/-- A dynamically typed JS value, covering the value shapes an options
object can carry in this source: `null`, `undefined`, numbers, strings,
booleans, and a coordinate (for the `controlPoint` option). -/
inductive JsValue where
  | vnull
  | vundef
  | vnum (q : ℚ)
  | vstr (s : String)
  | vbool (b : Bool)
  | vcoord (c : Coordinate)
deriving DecidableEq, Repr

/-- JS truthiness of a `JsValue`: `null`, `undefined`, `0` and `""` are
falsy; every other value occurring here is truthy (objects always are). -/
def truthy : JsValue → Bool
  | JsValue.vnull => false
  | JsValue.vundef => false
  | JsValue.vnum q => q != 0
  | JsValue.vstr s => s != ""
  | JsValue.vbool b => b
  | JsValue.vcoord _ => true

/-- An options object: an association list of (property name, value). -/
abbrev Options := List (String × JsValue)

/-- Property read `o[k]`: the first stored value for the key, and
`undefined` when the key is absent (as in JS). -/
def getAttr (o : Options) (k : String) : JsValue :=
  match o.lookup k with
  | some v => v
  | none => JsValue.vundef

/-- `QuadraticBezierLine.defaults` (source line 39):
`{color: "#ff0000", opacity: 0.6, weight: 5, steps: 20, controlPoint: null, curveFactor: 0.4}`. -/
def defaults : Options :=
  [("color", JsValue.vstr "#ff0000"), ("opacity", JsValue.vnum 0.6),
   ("weight", JsValue.vnum 5), ("steps", JsValue.vnum 20),
   ("controlPoint", JsValue.vnull), ("curveFactor", JsValue.vnum 0.4)]

/-- The numeric payload of an option value, at a use site where the source
treats the value as a number (`curveFactor`, `steps`). -/
def asNum : JsValue → ℚ
  | JsValue.vnum q => q
  | _ => 0

/-- The coordinate payload of an option value, at a use site where the
source treats the value as a `GLatLng` (`controlPoint`). -/
def asCoord : JsValue → Coordinate
  | JsValue.vcoord c => c
  | _ => ⟨0, 0⟩

/-- The `steps` option read as the non-negative integer count which the
sampling loop treats it as. -/
def natSteps (o : Options) : ℕ := (asNum (getAttr o "steps")).floor.toNat

/-- `QuadraticBezierLine.mergeOptions` (source lines 120-133): if `opts`
is absent (`!opts`), return `defaults` itself; otherwise build an object
with exactly the own keys of `defaults` (`for attr in defaults` guarded by
`hasOwnProperty`), each mapped to `opts[attr] || defaults[attr]`.  The
second parameter is named `defaults` in the source. -/
def mergeOptions (opts : Option Options) (defs : Options) : Options :=
  match opts with
  | none => defs
  | some o => defs.map (fun kv => (kv.1, if truthy (getAttr o kv.1) then getAttr o kv.1 else kv.2))

/-- The object state of a `QuadraticBezierLine` instance: `from` and `to`
endpoints, the resolved options, the resolved control point, and the two
lazily assigned fields `points` (`null` until computed) and `middlePoint`
(`undefined` until assigned).  The source fields `from` and `to` are `from_` and `to_` here because both are Lean keywords. -/
structure QuadraticBezierLine where
  from_ : Coordinate
  to_ : Coordinate
  opts : Options
  control : Coordinate
  points : Option (List Coordinate)
  middlePoint : Option Coordinate
deriving DecidableEq, Repr

/-- `QuadraticBezierLine.prototype.bezier` (source lines 112-114): the
scalar quadratic Bezier blend over one axis, extracted by `getValue`. -/
def bezier (self : QuadraticBezierLine) (t : ℚ) (getValue : Coordinate → ℚ) : ℚ :=
  (((1 - t) * (1 - t)) * (getValue self.from_)) + ((2 * t) * (1 - t) * (getValue self.control)) + ((t * t) * (getValue self.to_))

/-- `QuadraticBezierLine.prototype.getPoint` (source lines 97-101):
evaluates the blend once for latitude and once for longitude. -/
def getPoint (self : QuadraticBezierLine) (t : ℚ) : Coordinate :=
  ⟨bezier self t (fun pt => pt.lat), bezier self t (fun pt => pt.lng)⟩

/-- `QuadraticBezierLine.prototype.calculateControlPoint` (source lines
80-84): midpoint of the endpoints, offset by `curveFactor`. -/
def calculateControlPoint (from_ to_ : Coordinate) (opts : Options) : Coordinate :=
  let factor := asNum (getAttr opts "curveFactor")
  let middlePoint : Coordinate := ⟨(from_.lat + to_.lat) / 2, (from_.lng + to_.lng) / 2⟩
  ⟨(middlePoint.lng - to_.lng) * factor + middlePoint.lat,
   (to_.lat - middlePoint.lat) * factor + middlePoint.lng⟩

/-- Source line 55: the requested step count rounded up to the nearest
even number (`steps % 2 === 0 ? steps : steps + 1`). -/
def effectiveSteps (steps : ℕ) : ℕ := if steps % 2 = 0 then steps else steps + 1

/-- The loop body of `getPolylinePoints` (source lines 57-63), embedded
structurally: `sampleIter self steps t n` runs the iterations
`t, t+1, ..., t+n-1` of `for (var t = 0; t <= steps; t++)` (so `n` is
`steps + 1 - t` at the call site).  It returns the points pushed, and the
value `self.middlePoint` was assigned (`none` when the guard
`t === steps / 2` never held). -/
def sampleIter (self : QuadraticBezierLine) (steps : ℕ) : ℕ → ℕ → List Coordinate × Option Coordinate
  | _t, 0 => ([], none)
  | t, Nat.succ n =>
    let pt := getPoint self ((t : ℚ) * (1 / (steps : ℚ)))
    let rest := sampleIter self steps (t + 1) n
    (pt :: rest.1, if (t : ℚ) = (steps : ℚ) / 2 then some pt else rest.2)

/-- `QuadraticBezierLine.prototype.getPolylinePoints` (source lines
50-66): returns the cached `this.points` when non-null (arrays are always
truthy), otherwise runs the sampling loop over the evened step count,
caches the result in `points`, assigns `middlePoint` when the loop's guard
hit, and returns the array together with the updated object. -/
def getPolylinePoints (self : QuadraticBezierLine) : List Coordinate × QuadraticBezierLine :=
  match self.points with
  | some ps => (ps, self)
  | none =>
    let steps := effectiveSteps (natSteps self.opts)
    let r := sampleIter self steps 0 (steps + 1)
    let mid := match r.2 with | some m => some m | none => self.middlePoint
    (r.1, { self with points := some r.1, middlePoint := mid })

/-- The arguments the constructor hands to `GPolyline.call` (source line
35): the point array and the styling options. -/
structure GPolylineArgs where
  polyPoints : List Coordinate
  color : JsValue
  weight : JsValue
  opacity : JsValue
deriving DecidableEq, Repr

/-- The constructor `QuadraticBezierLine` (source lines 29-36).  Note
line 32 assigns `this.opts = QuadraticBezierLine.defaults;` — the call to
`mergeOptions(opts, QuadraticBezierLine.defaults)` is commented out in the
source, so the `opts` parameter is ignored.  `this.control` is
`this.opts.controlPoint || this.calculateControlPoint()`.  The returned
pair is the constructed object and the `GPolyline.call` arguments. -/
def construct (from_ to_ : Coordinate) (opts : Option Options) : QuadraticBezierLine × GPolylineArgs :=
  let mergedOpts := defaults
  let self0 : QuadraticBezierLine :=
    { from_ := from_, to_ := to_, opts := mergedOpts,
      control := if truthy (getAttr mergedOpts "controlPoint")
                 then asCoord (getAttr mergedOpts "controlPoint")
                 else calculateControlPoint from_ to_ mergedOpts,
      points := none, middlePoint := none }
  let r := getPolylinePoints self0
  (r.2, { polyPoints := r.1, color := getAttr mergedOpts "color",
          weight := getAttr mergedOpts "weight", opacity := getAttr mergedOpts "opacity" })

/-! ## IEEE-754-faithful model of the sampling arithmetic

`JsNum` refines the `ℚ` model exactly where it is unfaithful: JS division
by zero.  Finite values carry exact rationals (rounding is not modelled;
no claim here depends on rounding), and the special values `Infinity`,
`-Infinity` and `NaN` follow IEEE-754, which JS numbers implement.  This
model is used for the `steps = 0` path of the sampling loop, where the
source computes `t * (1 / steps) = 0 * (1 / 0)`. -/

/-- A JS number: a finite value (exact), an infinity, or NaN. -/
inductive JsNum where
  | fin (q : ℚ)
  | posInf
  | negInf
  | nan
deriving DecidableEq, Repr

/-- IEEE-754 negation. -/
def jsNeg : JsNum → JsNum
  | JsNum.fin q => JsNum.fin (-q)
  | JsNum.posInf => JsNum.negInf
  | JsNum.negInf => JsNum.posInf
  | JsNum.nan => JsNum.nan

/-- IEEE-754 addition (finite arithmetic exact). -/
def jsAdd : JsNum → JsNum → JsNum
  | JsNum.nan, _ => JsNum.nan
  | _, JsNum.nan => JsNum.nan
  | JsNum.fin a, JsNum.fin b => JsNum.fin (a + b)
  | JsNum.fin _, JsNum.posInf => JsNum.posInf
  | JsNum.fin _, JsNum.negInf => JsNum.negInf
  | JsNum.posInf, JsNum.fin _ => JsNum.posInf
  | JsNum.negInf, JsNum.fin _ => JsNum.negInf
  | JsNum.posInf, JsNum.posInf => JsNum.posInf
  | JsNum.negInf, JsNum.negInf => JsNum.negInf
  | JsNum.posInf, JsNum.negInf => JsNum.nan
  | JsNum.negInf, JsNum.posInf => JsNum.nan

/-- IEEE-754 subtraction, as addition of the negation. -/
def jsSub (a b : JsNum) : JsNum := jsAdd a (jsNeg b)

/-- IEEE-754 multiplication: `0 * ±Infinity = NaN`, signs otherwise. -/
def jsMul : JsNum → JsNum → JsNum
  | JsNum.nan, _ => JsNum.nan
  | _, JsNum.nan => JsNum.nan
  | JsNum.fin a, JsNum.fin b => JsNum.fin (a * b)
  | JsNum.fin a, JsNum.posInf =>
      if 0 < a then JsNum.posInf else if a < 0 then JsNum.negInf else JsNum.nan
  | JsNum.fin a, JsNum.negInf =>
      if 0 < a then JsNum.negInf else if a < 0 then JsNum.posInf else JsNum.nan
  | JsNum.posInf, JsNum.fin b =>
      if 0 < b then JsNum.posInf else if b < 0 then JsNum.negInf else JsNum.nan
  | JsNum.negInf, JsNum.fin b =>
      if 0 < b then JsNum.negInf else if b < 0 then JsNum.posInf else JsNum.nan
  | JsNum.posInf, JsNum.posInf => JsNum.posInf
  | JsNum.posInf, JsNum.negInf => JsNum.negInf
  | JsNum.negInf, JsNum.posInf => JsNum.negInf
  | JsNum.negInf, JsNum.negInf => JsNum.posInf

/-- IEEE-754 division: a nonzero finite value divided by (positive) zero
is a signed infinity, `0 / 0 = NaN`, infinities over finite values keep
sign, `Infinity / Infinity = NaN`. -/
def jsDiv : JsNum → JsNum → JsNum
  | JsNum.nan, _ => JsNum.nan
  | _, JsNum.nan => JsNum.nan
  | JsNum.fin a, JsNum.fin b =>
      if b = 0 then (if a = 0 then JsNum.nan else if 0 < a then JsNum.posInf else JsNum.negInf)
      else JsNum.fin (a / b)
  | JsNum.fin _, JsNum.posInf => JsNum.fin 0
  | JsNum.fin _, JsNum.negInf => JsNum.fin 0
  | JsNum.posInf, JsNum.fin b => if 0 ≤ b then JsNum.posInf else JsNum.negInf
  | JsNum.negInf, JsNum.fin b => if 0 ≤ b then JsNum.negInf else JsNum.posInf
  | JsNum.posInf, JsNum.posInf => JsNum.nan
  | JsNum.posInf, JsNum.negInf => JsNum.nan
  | JsNum.negInf, JsNum.posInf => JsNum.nan
  | JsNum.negInf, JsNum.negInf => JsNum.nan

/-- A `GLatLng` whose components are JS numbers, for the IEEE-faithful
model. -/
structure JsCoord where
  lat : JsNum
  lng : JsNum
deriving DecidableEq, Repr

/-- The blend of source lines 112-114 over `JsNum`, with the source's
association: `(((1-t)*(1-t))*from) + ((2*t)*(1-t)*control) + ((t*t)*to)`. -/
def jsBezier (t fromV controlV toV : JsNum) : JsNum :=
  jsAdd (jsAdd (jsMul (jsMul (jsSub (JsNum.fin 1) t) (jsSub (JsNum.fin 1) t)) fromV)
               (jsMul (jsMul (jsMul (JsNum.fin 2) t) (jsSub (JsNum.fin 1) t)) controlV))
        (jsMul (jsMul t t) toV)

/-- `getPoint` (source lines 97-101) over `JsNum`. -/
def jsGetPoint (from_ control to_ : JsCoord) (t : JsNum) : JsCoord :=
  ⟨jsBezier t from_.lat control.lat to_.lat, jsBezier t from_.lng control.lng to_.lng⟩

/-- The loop of `getPolylinePoints` (source lines 57-63) over `JsNum`:
identical control flow to `sampleIter`, but the parameter `t * (1 / steps)`
is computed with IEEE-754 arithmetic. -/
def jsSampleIter (from_ control to_ : JsCoord) (steps : ℕ) : ℕ → ℕ → List JsCoord × Option JsCoord
  | _t, 0 => ([], none)
  | t, Nat.succ n =>
    let pt := jsGetPoint from_ control to_ (jsMul (JsNum.fin (t : ℚ)) (jsDiv (JsNum.fin 1) (JsNum.fin (steps : ℚ))))
    let rest := jsSampleIter from_ control to_ steps (t + 1) n
    (pt :: rest.1, if (t : ℚ) = (steps : ℚ) / 2 then some pt else rest.2)

/-- The whole loop (`t` from `0` to `steps` inclusive) over `JsNum`. -/
def jsSampleLoop (from_ control to_ : JsCoord) (steps : ℕ) : List JsCoord × Option JsCoord :=
  jsSampleIter from_ control to_ steps 0 (steps + 1)

/-- Modelled from the spec (section 4.1, `resolveControlPoint`): the
control-point formula stated in the spec's own words, for comparison with
the source's `calculateControlPoint`. -/
def resolveControlPointSpec (from_ to_ : Coordinate) (curveFactor : ℚ) : Coordinate :=
  let m : Coordinate := ⟨(from_.lat + to_.lat) / 2, (from_.lng + to_.lng) / 2⟩
  ⟨(m.lng - to_.lng) * curveFactor + m.lat, (to_.lat - m.lat) * curveFactor + m.lng⟩

/-! ## Helper lemmas -/

/-- `bezier` at `t = 0` collapses to the `from` axis value. -/
theorem bezier_zero (self : QuadraticBezierLine) (g : Coordinate → ℚ) :
    bezier self 0 g = g self.from_ := by
  unfold bezier
  ring

/-- `bezier` at `t = 1` collapses to the `to` axis value. -/
theorem bezier_one (self : QuadraticBezierLine) (g : Coordinate → ℚ) :
    bezier self 1 g = g self.to_ := by
  unfold bezier
  ring

/-- `getPoint` at `t = 0` is the `from` endpoint. -/
theorem getPoint_zero (self : QuadraticBezierLine) : getPoint self 0 = self.from_ := by
  unfold getPoint
  rw [bezier_zero, bezier_zero]

/-- `getPoint` at `t = 1` is the `to` endpoint. -/
theorem getPoint_one (self : QuadraticBezierLine) : getPoint self 1 = self.to_ := by
  unfold getPoint
  rw [bezier_one, bezier_one]

/-- When all three control coordinates coincide, the blend is constant. -/
theorem getPoint_const (self : QuadraticBezierLine) (p : Coordinate)
    (hf : self.from_ = p) (hc : self.control = p) (ht : self.to_ = p) (t : ℚ) :
    getPoint self t = p := by
  have key : ∀ v : ℚ, (((1 - t) * (1 - t)) * v) + ((2 * t) * (1 - t) * v) + ((t * t) * v) = v := by
    intro v
    ring
  unfold getPoint bezier
  rw [hf, hc, ht, key, key]

/-- The points component of the loop embedding is the map of `getPoint`
over the remaining counter range. -/
theorem sampleIter_fst (self : QuadraticBezierLine) (steps : ℕ) (n : ℕ) :
    ∀ t : ℕ, (sampleIter self steps t n).1 =
      (List.range' t n).map (fun i : ℕ => getPoint self ((i : ℚ) * (1 / (steps : ℚ)))) := by
  induction n with
  | zero =>
    intro t
    simp [sampleIter]
  | succ n ih =>
    intro t
    simp only [sampleIter, List.range'_succ, List.map_cons]
    rw [ih]

/-- The midpoint component of the loop embedding, for an even total count
`2 * m`: starting anywhere at or before `m`, the value assigned is the
sample at counter `m`. -/
theorem sampleIter_snd (self : QuadraticBezierLine) (m : ℕ) (n : ℕ) :
    ∀ t : ℕ, t + n = 2 * m + 1 → t ≤ m →
      (sampleIter self (2 * m) t n).2 =
        some (getPoint self ((m : ℚ) * (1 / ((2 * m : ℕ) : ℚ)))) := by
  induction n with
  | zero =>
    intro t h1 h2
    omega
  | succ n ih =>
    intro t h1 h2
    rcases Nat.lt_or_ge t m with hlt | hge
    · have hne : ¬ ((t : ℚ) = ((2 * m : ℕ) : ℚ) / 2) := by
        push_cast
        intro hcon
        have hq : (t : ℚ) = (m : ℚ) := by linarith
        have : t = m := Nat.cast_injective hq
        omega
      simp only [sampleIter]
      rw [if_neg hne]
      exact ih (t + 1) (by omega) (by omega)
    · have ht : t = m := by omega
      subst ht
      have hpos : ((t : ℚ) = ((2 * t : ℕ) : ℚ) / 2) := by
        push_cast
        ring
      simp only [sampleIter]
      rw [if_pos hpos]

/-- `effectiveSteps` always yields an even number. -/
theorem effectiveSteps_even (n : ℕ) : effectiveSteps n % 2 = 0 := by
  unfold effectiveSteps
  split <;> omega

/-- With an empty cache, `getPolylinePoints` produces the map of
`getPoint` over the evenly spaced parameters. -/
theorem getPolylinePoints_fst (self : QuadraticBezierLine) (h : self.points = none) :
    (getPolylinePoints self).1 =
      (List.range (effectiveSteps (natSteps self.opts) + 1)).map
        (fun i : ℕ => getPoint self ((i : ℚ) * (1 / ((effectiveSteps (natSteps self.opts) : ℕ) : ℚ)))) := by
  rw [List.range_eq_range']
  simp only [getPolylinePoints, h]
  rw [sampleIter_fst]

/-- With an empty cache and a positive step count, the `middlePoint`
written by `getPolylinePoints` is the sample at parameter `1 / 2`. -/
theorem getPolylinePoints_mid (self : QuadraticBezierLine) (h : self.points = none)
    (hs : 1 ≤ natSteps self.opts) :
    ((getPolylinePoints self).2).middlePoint = some (getPoint self (1 / 2)) := by
  obtain ⟨m, hm⟩ : ∃ m, effectiveSteps (natSteps self.opts) = 2 * m := by
    have := effectiveSteps_even (natSteps self.opts)
    exact ⟨effectiveSteps (natSteps self.opts) / 2, by omega⟩
  have hm1 : 1 ≤ m := by
    unfold effectiveSteps at hm
    split at hm <;> omega
  have hmid := sampleIter_snd self m (2 * m + 1) 0 (by omega) (by omega)
  have harg : ((m : ℚ) * (1 / ((2 * m : ℕ) : ℚ))) = 1 / 2 := by
    have hmq : ((m : ℚ)) ≠ 0 := by
      exact_mod_cast Nat.one_le_iff_ne_zero.mp hm1
    push_cast
    field_simp
    ring
  simp only [getPolylinePoints, h, hm]
  rw [hmid, harg]

/-- Evenness decomposition used for the midpoint parameter: half of an
even positive count, times one over the count, is exactly one half. -/
theorem half_param (k : ℕ) (hk : 1 ≤ k) (he : k % 2 = 0) :
    ((k / 2 : ℕ) : ℚ) * (1 / (k : ℚ)) = 1 / 2 := by
  obtain ⟨m, rfl⟩ : ∃ m, k = 2 * m := ⟨k / 2, by omega⟩
  rw [show 2 * m / 2 = m by omega]
  have hm : (m : ℚ) ≠ 0 := by
    have hm0 : m ≠ 0 := by omega
    exact_mod_cast hm0
  push_cast
  field_simp
  ring

/-- A concrete freshly constructed state used by the witnesses: endpoints
(0,0) and (10,10), the default options, control point (3,7) (the value
`calculateControlPoint` derives for these endpoints). -/
def sampleState : QuadraticBezierLine :=
  { from_ := ⟨0, 0⟩, to_ := ⟨10, 10⟩, opts := defaults, control := ⟨3, 7⟩,
    points := none, middlePoint := none }

/-- C4: for all endpoints `from` and `to`, every control point, and every
steps value with `effectiveSteps ≥ 1`, the sampled sequence satisfies
`points[0] = from` and `points[last] = to` exactly, because the parameter
values `t = 0` and `t = 1` collapse the quadratic blend
`(1-t)^2·from + 2t(1-t)·control + t^2·to` to the respective endpoint. -/
theorem endpoints_exact (self : QuadraticBezierLine) (h : self.points = none)
    (hs : 1 ≤ effectiveSteps (natSteps self.opts)) :
    ((getPolylinePoints self).1).head? = some self.from_ ∧
    ((getPolylinePoints self).1).getLast? = some self.to_ := by
  rw [getPolylinePoints_fst self h]
  constructor
  · rw [List.range_eq_range', List.range'_succ, List.map_cons]
    simp [getPoint_zero]
  · rw [List.range_succ, List.map_append, List.map_cons, List.map_nil, List.getLast?_concat]
    have hk : ((effectiveSteps (natSteps self.opts) : ℕ) : ℚ) ≠ 0 := by
      exact_mod_cast Nat.one_le_iff_ne_zero.mp hs
    rw [show ((effectiveSteps (natSteps self.opts) : ℕ) : ℚ) *
          (1 / ((effectiveSteps (natSteps self.opts) : ℕ) : ℚ)) = 1 by field_simp]
    rw [getPoint_one]

/-- Witness for C4 at the concrete state `sampleState`. -/
theorem endpoints_exact_witness :
    ((getPolylinePoints sampleState).1).head? = some sampleState.from_ ∧
    ((getPolylinePoints sampleState).1).getLast? = some sampleState.to_ :=
  endpoints_exact sampleState rfl (by decide)

/-- C5: for every non-negative integer steps, the produced point sequence
has length `effectiveSteps + 1`, where `effectiveSteps` is `steps` when
`steps` is even and `steps + 1` when `steps` is odd. -/
theorem points_length (self : QuadraticBezierLine) (h : self.points = none) :
    ((getPolylinePoints self).1).length = effectiveSteps (natSteps self.opts) + 1 ∧
    (∀ n : ℕ, n % 2 = 0 → effectiveSteps n = n) ∧
    (∀ n : ℕ, n % 2 = 1 → effectiveSteps n = n + 1) := by
  refine ⟨?_, fun n hn => ?_, fun n hn => ?_⟩
  · rw [getPolylinePoints_fst self h]
    simp
  · unfold effectiveSteps
    rw [if_pos hn]
  · unfold effectiveSteps
    rw [if_neg (by omega)]

/-- Witness for C5 at the concrete state `sampleState` (steps = 20). -/
theorem points_length_witness :
    ((getPolylinePoints sampleState).1).length = effectiveSteps (natSteps sampleState.opts) + 1 ∧
    (∀ n : ℕ, n % 2 = 0 → effectiveSteps n = n) ∧
    (∀ n : ℕ, n % 2 = 1 → effectiveSteps n = n + 1) :=
  points_length sampleState rfl

/-- C6: for every `from`, `to`, control, and steps with
`effectiveSteps ≥ 1`, the midpoint recorded during sampling is the sample
at index `effectiveSteps / 2` and equals `evaluateAt(0.5, from, control,
to)` — here `getPoint self (1/2)` — exactly. -/
theorem midpoint_exact (self : QuadraticBezierLine) (h : self.points = none)
    (hs : 1 ≤ effectiveSteps (natSteps self.opts)) :
    ((getPolylinePoints self).2).middlePoint = some (getPoint self (1 / 2)) ∧
    ((getPolylinePoints self).1)[effectiveSteps (natSteps self.opts) / 2]? =
      some (getPoint self (1 / 2)) := by
  have hs' : 1 ≤ natSteps self.opts := by
    rcases Nat.eq_zero_or_pos (natSteps self.opts) with h0 | h1
    · rw [h0] at hs
      simp [effectiveSteps] at hs
    · exact h1
  constructor
  · exact getPolylinePoints_mid self h hs'
  · rw [getPolylinePoints_fst self h, List.getElem?_map,
        List.getElem?_range (by omega : effectiveSteps (natSteps self.opts) / 2 <
          effectiveSteps (natSteps self.opts) + 1)]
    rw [Option.map_some']
    rw [half_param (effectiveSteps (natSteps self.opts)) hs (effectiveSteps_even _)]

/-- Witness for C6 at the concrete state `sampleState`. -/
theorem midpoint_exact_witness :
    ((getPolylinePoints sampleState).2).middlePoint = some (getPoint sampleState (1 / 2)) ∧
    ((getPolylinePoints sampleState).1)[effectiveSteps (natSteps sampleState.opts) / 2]? =
      some (getPoint sampleState (1 / 2)) :=
  midpoint_exact sampleState rfl (by decide)

/-- C7: for all endpoints and every curveFactor, the derived control
point equals exactly the spec formula
`((m.lng - to.lng)·f + m.lat, (to.lat - m.lat)·f + m.lng)` with `m` the
arithmetic midpoint, and with `curveFactor = 0` it reduces to
`(m.lat, m.lng)`. -/
theorem control_formula (from_ to_ : Coordinate) (opts : Options) (f2 t2 : Coordinate) :
    calculateControlPoint from_ to_ opts =
      resolveControlPointSpec from_ to_ (asNum (getAttr opts "curveFactor")) ∧
    resolveControlPointSpec f2 t2 0 = ⟨(f2.lat + t2.lat) / 2, (f2.lng + t2.lng) / 2⟩ := by
  constructor
  · rfl
  · unfold resolveControlPointSpec
    norm_num

/-- C8: `getPolylinePoints` is idempotent: a second call on the updated
object returns the cached sequence unchanged, with an unchanged object —
so the two returned sequences are the same sequence. -/
theorem getPolylinePoints_idempotent (self : QuadraticBezierLine) :
    getPolylinePoints ((getPolylinePoints self).2) =
      ((getPolylinePoints self).1, (getPolylinePoints self).2) := by
  cases h : self.points with
  | some ps => simp [getPolylinePoints, h]
  | none => simp [getPolylinePoints, h]

/-- Lookup characterization of `mergeOptions`: a key resolves to the
(first) default entry's value, replaced by the caller's value exactly when
the caller's value is truthy. -/
theorem mergeOptions_lookup (o defs : Options) (k : String) :
    (mergeOptions (some o) defs).lookup k =
      (defs.lookup k).map (fun v => if truthy (getAttr o k) then getAttr o k else v) := by
  induction defs with
  | nil => rfl
  | cons kv rest ih =>
    obtain ⟨k1, v1⟩ := kv
    by_cases hk : k = k1
    · subst hk
      simp [mergeOptions, List.lookup_cons]
    · simp only [mergeOptions, List.map_cons, List.lookup_cons] at ih ⊢
      rw [show (k == k1) = false from beq_eq_false_iff_ne.mpr hk]
      simpa [mergeOptions] using ih

/-- C9: `mergeOptions(opts, defaults)` returns `defaults` itself when
`opts` is absent; otherwise it returns an object whose keys are exactly
the keys of `defaults`, each mapping to `opts[key]` when that value is
truthy and to `defaults[key]` otherwise — so caller-supplied falsy values
(`opacity = 0`, `steps = 0`) are silently replaced by the default, and
caller keys not among the default keys are dropped. -/
theorem mergeOptions_spec :
    (∀ defs : Options, mergeOptions none defs = defs) ∧
    (∀ o defs : Options, (mergeOptions (some o) defs).map Prod.fst = defs.map Prod.fst) ∧
    (∀ (o defs : Options) (k : String) (v : JsValue), defs.lookup k = some v →
      (mergeOptions (some o) defs).lookup k =
        some (if truthy (getAttr o k) then getAttr o k else v)) ∧
    (∀ (o defs : Options) (k : String), defs.lookup k = none →
      (mergeOptions (some o) defs).lookup k = none) ∧
    getAttr (mergeOptions
      (some [("opacity", JsValue.vnum 0), ("steps", JsValue.vnum 0), ("extra", JsValue.vbool true)])
      defaults) "opacity" = JsValue.vnum 0.6 ∧
    getAttr (mergeOptions
      (some [("opacity", JsValue.vnum 0), ("steps", JsValue.vnum 0), ("extra", JsValue.vbool true)])
      defaults) "steps" = JsValue.vnum 20 ∧
    getAttr (mergeOptions
      (some [("opacity", JsValue.vnum 0), ("steps", JsValue.vnum 0), ("extra", JsValue.vbool true)])
      defaults) "extra" = JsValue.vundef := by
  refine ⟨fun defs => rfl, fun o defs => ?_, fun o defs k v hv => ?_, fun o defs k hv => ?_,
    rfl, rfl, rfl⟩
  · induction defs with
    | nil => rfl
    | cons kv rest ih =>
      simp only [mergeOptions, List.map_cons] at ih ⊢
      rw [ih]
  · rw [mergeOptions_lookup, hv, Option.map_some']
  · rw [mergeOptions_lookup, hv, Option.map_none']

/-- Witness for C9: absent opts give back the defaults, and a concrete
truthy supplied value replaces the default in the merged result. -/
theorem mergeOptions_spec_witness :
    mergeOptions none defaults = defaults ∧
    (mergeOptions (some [("color", JsValue.vstr "#00ff00")]) defaults).lookup "color" =
      some (if truthy (getAttr [("color", JsValue.vstr "#00ff00")] "color")
            then getAttr [("color", JsValue.vstr "#00ff00")] "color"
            else JsValue.vstr "#ff0000") :=
  ⟨mergeOptions_spec.1 defaults,
   mergeOptions_spec.2.2.1 [("color", JsValue.vstr "#00ff00")] defaults "color"
     (JsValue.vstr "#ff0000") rfl⟩

/-- C1 (code bug): the constructor does NOT apply user-supplied options —
source line 32 assigns `this.opts = QuadraticBezierLine.defaults;` with
the `mergeOptions` call commented out, contradicting the header comment
(lines 2-8) that documents the recognized options.  Evaluated at a config
supplying `color = "#00ff00"` and `steps = 4`: the resolved options are
the defaults, the overlay collaborator receives the default color
`"#ff0000"`, the curve has 21 points (default steps 20, not 4), yet
`mergeOptions` applied to the same input would have honored the supplied
color. -/
theorem construct_ignores_options :
    (construct ⟨0, 0⟩ ⟨10, 10⟩
      (some [("color", JsValue.vstr "#00ff00"), ("steps", JsValue.vnum 4)])).1.opts = defaults ∧
    (construct ⟨0, 0⟩ ⟨10, 10⟩
      (some [("color", JsValue.vstr "#00ff00"), ("steps", JsValue.vnum 4)])).2.color =
      JsValue.vstr "#ff0000" ∧
    ((construct ⟨0, 0⟩ ⟨10, 10⟩
      (some [("color", JsValue.vstr "#00ff00"), ("steps", JsValue.vnum 4)])).2.polyPoints).length = 21 ∧
    getAttr (mergeOptions
      (some [("color", JsValue.vstr "#00ff00"), ("steps", JsValue.vnum 4)]) defaults) "color" =
      JsValue.vstr "#00ff00" :=
  ⟨rfl, rfl, rfl, rfl⟩

/-- C2 (code bug): a config supplying an explicit `controlPoint` does not
become the curve's control point, because the constructor discards `opts`
(line 32); the control is always derived by `calculateControlPoint`,
contradicting the header comment (line 6).  Evaluated at `from = (0,0)`,
`to = (10,10)`, supplied `controlPoint = (1,2)`: the resolved control is
the derived `(3,7)`, not the supplied (truthy) `(1,2)`. -/
theorem construct_ignores_controlPoint :
    (construct ⟨0, 0⟩ ⟨10, 10⟩
      (some [("controlPoint", JsValue.vcoord ⟨1, 2⟩)])).1.control = ⟨3, 7⟩ ∧
    ((⟨3, 7⟩ : Coordinate) ≠ ⟨1, 2⟩) ∧
    truthy (JsValue.vcoord ⟨1, 2⟩) = true := by
  refine ⟨?_, by decide, rfl⟩
  show calculateControlPoint ⟨0, 0⟩ ⟨10, 10⟩ defaults = ⟨3, 7⟩
  have hf : asNum (getAttr defaults "curveFactor") = 0.4 := rfl
  simp [calculateControlPoint, hf]
  norm_num

/-- NaN propagates through the blend of `bezier` regardless of the three
axis values. -/
theorem jsBezier_nan (a b c : JsNum) : jsBezier JsNum.nan a b c = JsNum.nan := by
  cases a <;> cases b <;> cases c <;> rfl

/-- C3 (counterexample): at `steps = 0` the sampled sequence is NOT the
single-point sequence `[from]`, and a non-finite value DOES arise from the
`t * (1 / steps)` computation: `0 * (1 / 0) = 0 * Infinity = NaN` in
IEEE-754 JS arithmetic, so with `from = (0,0)`, `control = (3,7)`,
`to = (10,10)` the single sample is `(NaN, NaN)`, not `(0,0)`. -/
theorem stepsZero_not_from :
    jsMul (JsNum.fin 0) (jsDiv (JsNum.fin 1) (JsNum.fin 0)) = JsNum.nan ∧
    (jsSampleLoop ⟨JsNum.fin 0, JsNum.fin 0⟩ ⟨JsNum.fin 3, JsNum.fin 7⟩
      ⟨JsNum.fin 10, JsNum.fin 10⟩ 0).1 = [⟨JsNum.nan, JsNum.nan⟩] ∧
    (⟨JsNum.nan, JsNum.nan⟩ : JsCoord) ≠ ⟨JsNum.fin 0, JsNum.fin 0⟩ :=
  ⟨rfl, rfl, by decide⟩

/-- C3 (amended): when `steps = 0` the loop still runs exactly once and no
exception is raised (the embedding is total), but the parameter is
`0 * (1 / 0) = NaN`, so for every `from`, `control` and `to` the produced
sequence is the single point `(NaN, NaN)` — not `[from]` — and the
midpoint (recorded at `t = 0 = steps / 2`) is that same NaN point. -/
theorem stepsZero_behavior (from_ control to_ : JsCoord) :
    jsSampleLoop from_ control to_ 0 =
      ([⟨JsNum.nan, JsNum.nan⟩], some ⟨JsNum.nan, JsNum.nan⟩) := by
  have hg : ((0 : ℕ) : ℚ) = ((0 : ℕ) : ℚ) / 2 := by norm_num
  have hp : jsMul (JsNum.fin ((0 : ℕ) : ℚ)) (jsDiv (JsNum.fin 1) (JsNum.fin ((0 : ℕ) : ℚ))) =
      JsNum.nan := by
    norm_num [jsMul, jsDiv]
  show (jsSampleIter from_ control to_ 0 0 1) = _
  simp only [jsSampleIter, if_pos hg, hp, jsGetPoint, jsBezier_nan]

/-- With coinciding endpoints the derived control point is that same
point, for every `curveFactor`. -/
theorem calculateControlPoint_self (p : Coordinate) (opts : Options) :
    calculateControlPoint p p opts = p := by
  unfold calculateControlPoint
  have h1 : (p.lat + p.lat) / 2 = p.lat := by ring
  have h2 : (p.lng + p.lng) / 2 = p.lng := by ring
  simp [h1, h2]

/-- C10 (counterexample): with `from = to = control = (0,0)` and
`steps = 0`, the sampled sequence in IEEE-754 JS arithmetic is the single
point `(NaN, NaN)`, which is not the repeated coordinate `(0,0)` — so the
claim does not hold for EVERY steps value. -/
theorem degenerate_stepsZero_nan :
    (jsSampleLoop ⟨JsNum.fin 0, JsNum.fin 0⟩ ⟨JsNum.fin 0, JsNum.fin 0⟩
      ⟨JsNum.fin 0, JsNum.fin 0⟩ 0).1 = [⟨JsNum.nan, JsNum.nan⟩] ∧
    (jsSampleLoop ⟨JsNum.fin 0, JsNum.fin 0⟩ ⟨JsNum.fin 0, JsNum.fin 0⟩
      ⟨JsNum.fin 0, JsNum.fin 0⟩ 0).1 ≠ [⟨JsNum.fin 0, JsNum.fin 0⟩] := by
  refine ⟨rfl, ?_⟩
  rw [show (jsSampleLoop ⟨JsNum.fin 0, JsNum.fin 0⟩ ⟨JsNum.fin 0, JsNum.fin 0⟩
      ⟨JsNum.fin 0, JsNum.fin 0⟩ 0).1 = [⟨JsNum.nan, JsNum.nan⟩] from rfl]
  decide

/-- C10 (amended): when `from = to` the derived control point equals
`from` for every `curveFactor`; and whenever the control point also equals
`from` and `steps ≥ 1`, every point of the sampled sequence and the
midpoint equal `from` (at `steps = 0` the sample is instead the NaN point,
see the counterexample). -/
theorem degenerate_from (self : QuadraticBezierLine) (h : self.points = none)
    (hto : self.to_ = self.from_) (hc : self.control = self.from_)
    (hs : 1 ≤ natSteps self.opts) :
    (∀ q ∈ (getPolylinePoints self).1, q = self.from_) ∧
    ((getPolylinePoints self).2).middlePoint = some self.from_ ∧
    (∀ (p : Coordinate) (o : Options), calculateControlPoint p p o = p) := by
  refine ⟨?_, ?_, fun p o => calculateControlPoint_self p o⟩
  · intro q hq
    rw [getPolylinePoints_fst self h] at hq
    obtain ⟨i, _, rfl⟩ := List.mem_map.mp hq
    exact getPoint_const self self.from_ rfl hc hto _
  · rw [getPolylinePoints_mid self h hs,
        getPoint_const self self.from_ rfl hc hto (1 / 2)]

/-- A concrete degenerate state: both endpoints and the control point at
(2,3), default options (steps = 20), empty cache. -/
def degState : QuadraticBezierLine :=
  { from_ := ⟨2, 3⟩, to_ := ⟨2, 3⟩, opts := defaults, control := ⟨2, 3⟩,
    points := none, middlePoint := none }

/-- Witness for C10 at the concrete degenerate state `degState`. -/
theorem degenerate_from_witness :
    (∀ q ∈ (getPolylinePoints degState).1, q = degState.from_) ∧
    ((getPolylinePoints degState).2).middlePoint = some degState.from_ ∧
    (∀ (p : Coordinate) (o : Options), calculateControlPoint p p o = p) :=
  degenerate_from degState rfl rfl rfl (by decide)
